import Mathlib

/-!
Shallow embedding of the reusable UI components of `static/js/components.js`
(the Modal helper and the AJAX-backed DataTable), together with proofs of the
behavioural properties claimed for them.

Modelling conventions:
* JavaScript values flowing through table cells are modelled by `JsValue`,
  with JS truthiness (`value || fallback`) captured by `JsValue.truthy`.
* The DOM is modelled structurally: the single shared modal element is a
  `ModalDom` record, the rendered table body is a list of rows of cells,
  and the rendered pagination bar is a `Pagination` record.  Presentation-only
  CSS classes that no claim mentions (for example `text-center py-5`) are
  elided from the structural model.
* Event handlers are modelled by data: a modal button click handler is the
  list of effects the source closure performs (`this.hide()`, invoking a
  named callback); jQuery `.on` registration is list append.
* `$.ajax` results are modelled as `Except String LoadBody`: the `.error`
  constructor covers network failure, HTTP error statuses and unparsable
  bodies, all of which reject the jQuery promise.  `loadData` returning a
  plain (non-`Except`) result reflects its catch-all `try/catch`: no
  exception escapes the component.
* JS numbers in the pagination arithmetic are modelled as `Nat`.  The two
  subtractions that could go negative in JS (`currentPage - 2` and
  `endPage - maxVisible + 1`) occur only under `Math.max(1, ·)`, where
  truncated `Nat` subtraction yields the same clamped result, and the
  comparison `endPage - startPage < maxVisible - 1` is equivalent to
  `endPage < startPage + maxVisible - 1` in both semantics.
-/

/-- Runtime JavaScript values that can appear in a table cell: the model keeps
exactly the distinctions the rendering code observes. -/
inductive JsValue where
  | undef
  | null
  | num (n : Int)
  | bool (b : Bool)
  | str (s : String)
deriving DecidableEq, Repr

/-- JS truthiness: `undefined`, `null`, `0`, `false` and the empty string are
falsy; every other modelled value is truthy. -/
def JsValue.truthy : JsValue → Bool
  | .undef => false
  | .null => false
  | .num n => n != 0
  | .bool b => b
  | .str s => s != ""

/-- String interpolation of a JS value, as performed by a template literal. -/
def JsValue.display : JsValue → String
  | .undef => "undefined"
  | .null => "null"
  | .num n => toString n
  | .bool b => cond b "true" "false"
  | .str s => s

/-- A backend row: an opaque mapping of field name to value. -/
abbrev RowData : Type := List (String × JsValue)

/-- Property access `row[key]`: a missing property reads as `undefined`. -/
def jsGet (row : RowData) (key : String) : JsValue :=
  match List.lookup key row with
  | some v => v
  | none => JsValue.undef

/-- Column descriptor `{key, label, sortable, render}` from the DataTable
options. -/
structure Column where
  key : String
  label : String
  sortable : Bool := true
  render : Option (RowData → JsValue) := none

/-- Sort direction strings used by the table. -/
inductive SortDirection where
  | asc
  | desc
deriving DecidableEq, Repr

/-- Query-string value of a sort direction. -/
def SortDirection.toParam : SortDirection → String
  | .asc => "asc"
  | .desc => "desc"

namespace DataTable

/-- DataTable construction options (the fields the verified operations read).
Source defaults: `pageSize: 20`, `searchable: true`, `sortable: true`,
`emptyMessage` defaulting to `No data available`. -/
structure Options where
  columns : List Column := []
  searchable : Bool := true
  sortable : Bool := true
  pageSize : Nat := 20
  onRowClick : Option Nat := none
  emptyMessage : String := "No data available"

/-- Mutable table state initialised by the constructor. -/
structure TableState where
  currentPage : Nat
  totalPages : Nat
  sortColumn : Option String
  sortDirection : SortDirection
  searchQuery : String
  filters : List (String × String)
deriving DecidableEq, Repr

/-- Constructor state: `currentPage = 1`, `totalPages = 1`, no sort column,
ascending direction, empty search, no filters. -/
def initState : TableState :=
  { currentPage := 1
    totalPages := 1
    sortColumn := none
    sortDirection := SortDirection.asc
    searchQuery := ""
    filters := [] }

/-- One property assignment while building a JS object literal: an existing
key is overwritten in place, a new key is appended. -/
def objAssign (obj : List (String × JsValue)) (kv : String × JsValue) :
    List (String × JsValue) :=
  if (obj.map Prod.fst).contains kv.1 then
    obj.map fun p => if p.1 = kv.1 then (p.1, kv.2) else p
  else
    obj ++ [kv]

/-- The params object `loadData` sends:
`{page, page_size, search, sort_by, sort_order, ...this.filters}`.  The
filters are spread last and object spread is later-wins, so a filter keyed
like one of the five base parameters overwrites the component-computed value
(for example a filter keyed `page` replaces the `page` value derived from
`currentPage`); among duplicate filter keys the last wins. -/
def buildParams (opts : Options) (st : TableState) : List (String × JsValue) :=
  (st.filters.map fun kv => (kv.1, JsValue.str kv.2)).foldl objAssign
    [("page", JsValue.num st.currentPage),
     ("page_size", JsValue.num opts.pageSize),
     ("search", JsValue.str st.searchQuery),
     ("sort_by", match st.sortColumn with
       | some c => JsValue.str c
       | none => JsValue.null),
     ("sort_order", JsValue.str st.sortDirection.toParam)]

/-- A rendered `<td>`: its `colspan` attribute and its inner HTML. -/
structure Cell where
  colspan : Nat
  content : String
deriving DecidableEq, Repr

/-- A rendered `<tr>` of the table body; `clickable` records whether a
row-click handler (and pointer cursor) was attached. -/
structure TRow where
  cells : List Cell
  clickable : Bool
deriving DecidableEq, Repr

/-- Inner HTML of the empty-state cell produced by `renderData` when the
result list is empty: an inbox icon, a heading, and the configured message. -/
def emptyStateHtml (message : String) : String :=
  "<div class=\"empty-state\"><i class=\"fas fa-inbox\"></i><h5>No Data Available</h5><p>"
    ++ message ++ "</p></div>"

/-- Cell value for a row and column: the result of `col.render(row)` when a
render function is configured, else `row[col.key]`. -/
def cellValue (col : Column) (row : RowData) : JsValue :=
  match col.render with
  | some f => f row
  | none => jsGet row col.key

/-- Inner HTML of a data cell: the interpolated value when truthy, else the
dash placeholder (the `value OR dash` template expression). -/
def tdContent (col : Column) (row : RowData) : String :=
  let value := cellValue col row
  if value.truthy then value.display else "-"

/-- `renderData(data)`: an empty list renders a single placeholder row whose
one cell spans all configured columns; otherwise one row per record with one
cell per column. -/
def renderData (opts : Options) (data : List RowData) : List TRow :=
  if data.length = 0 then
    [{ cells := [{ colspan := opts.columns.length
                   content := emptyStateHtml opts.emptyMessage }]
       clickable := false }]
  else
    data.map fun row =>
      { cells := opts.columns.map fun col => { colspan := 1, content := tdContent col row }
        clickable := opts.onRowClick.isSome }

/-- A numbered page link with its `data-page` value and whether it carries the
`active` class. -/
structure PageLink where
  page : Nat
  active : Bool
deriving DecidableEq, Repr

/-- The rendered pagination bar: info text, previous link, the window of
numbered links, next link.  `prevTarget`/`nextTarget` are the `data-page`
values of the chevron links. -/
structure Pagination where
  info : String
  prevDisabled : Bool
  prevTarget : Nat
  links : List PageLink
  nextDisabled : Bool
  nextTarget : Nat
deriving DecidableEq, Repr

/-- The window of page numbers the `for` loop of `renderPagination` emits:
`startPage = max(1, currentPage - floor(maxVisible/2))`,
`endPage = min(totalPages, startPage + maxVisible - 1)`, with `startPage`
pulled back to `max(1, endPage - maxVisible + 1)` when the window is short,
then the numbers `startPage..endPage`. -/
def pageWindow (currentPage totalPages : Nat) : List Nat :=
  let maxVisible : Nat := 5
  let startPage0 := max 1 (currentPage - maxVisible / 2)
  let endPage := min totalPages (startPage0 + maxVisible - 1)
  let startPage :=
    if endPage - startPage0 < maxVisible - 1 then max 1 (endPage - maxVisible + 1)
    else startPage0
  List.range' startPage (endPage + 1 - startPage)

/-- Value of the local `startPage` of `renderPagination` before the short-window
adjustment. -/
def pwStartInit (currentPage : Nat) : Nat := max 1 (currentPage - 5 / 2)

/-- Value of the local `endPage` of `renderPagination`. -/
def pwEnd (currentPage totalPages : Nat) : Nat :=
  min totalPages (pwStartInit currentPage + 5 - 1)

/-- Final value of the local `startPage` of `renderPagination`. -/
def pwStart (currentPage totalPages : Nat) : Nat :=
  if pwEnd currentPage totalPages - pwStartInit currentPage < 5 - 1 then
    max 1 (pwEnd currentPage totalPages - 5 + 1)
  else pwStartInit currentPage

/-- `renderPagination(totalCount)`: sets
`totalPages = Math.ceil(totalCount / pageSize)` (for `pageSize ≥ 1` this is
`(totalCount + pageSize - 1) / pageSize` over `Nat`), renders the info text
`Showing start to end of totalCount entries`, a previous link disabled on
page 1, the numbered window, and a next link disabled on the last page. -/
def renderPagination (opts : Options) (st : TableState) (totalCount : Nat) :
    TableState × Pagination :=
  let totalPages := (totalCount + opts.pageSize - 1) / opts.pageSize
  let start := (st.currentPage - 1) * opts.pageSize + 1
  let stop := min (st.currentPage * opts.pageSize) totalCount
  ({ st with totalPages := totalPages },
   { info := "Showing " ++ toString start ++ " to " ++ toString stop ++ " of "
       ++ toString totalCount ++ " entries"
     prevDisabled := st.currentPage == 1
     prevTarget := st.currentPage - 1
     links := (pageWindow st.currentPage totalPages).map fun i =>
       { page := i, active := i == st.currentPage }
     nextDisabled := st.currentPage == totalPages
     nextTarget := st.currentPage + 1 })

/-- Parsed response body of the list endpoint: each expected key may be
absent (or `null`), which JS property access reads as a falsy value. -/
structure LoadBody where
  results : Option (List RowData)
  data : Option (List RowData)
  count : Option Nat
deriving DecidableEq

/-- A toast notification: message and level. -/
structure Toast where
  message : String
  level : String
deriving DecidableEq, Repr

/-- Observable outcome of one `loadData()` call: the request it issued, the
rendered body, the rendered pagination (absent when the load failed, since
`renderPagination` is only reached on success), any toast, any console error
log, and how many HTTP requests were made (never more than one: no retry). -/
structure LoadOutcome where
  request : List (String × JsValue)
  tbody : List TRow
  pagination : Option Pagination
  toast : Option Toast
  consoleErrors : List String
  requests : Nat
deriving DecidableEq

/-- `loadData()`: builds the query from the current state, issues one GET and
awaits `ajaxResult`.  On success it renders
`response.results || response.data || []` and paginates on
`response.count || 0`.  On any rejection the `catch` block logs the error,
shows a `Failed to load data` toast and renders the empty list; the `catch`
is total, so the function returns normally in every case. -/
def loadData (opts : Options) (st : TableState) (ajaxResult : Except String LoadBody) :
    TableState × LoadOutcome :=
  let params := buildParams opts st
  match ajaxResult with
  | Except.ok body =>
      let rows := (body.results.orElse fun _ => body.data).getD []
      let cnt := body.count.getD 0
      let paged := renderPagination opts st cnt
      (paged.1,
       { request := params
         tbody := renderData opts rows
         pagination := some paged.2
         toast := none
         consoleErrors := []
         requests := 1 })
  | Except.error e =>
      (st,
       { request := params
         tbody := renderData opts []
         pagination := none
         toast := some { message := "Failed to load data", level := "error" }
         consoleErrors := ["Error loading data: " ++ e]
         requests := 1 })

/-- Click handler of a sortable header (from `attachEvents`): toggle the
direction when the clicked column is already active, else select it
ascending; always calls `loadData` once (the returned count). -/
def sortClick (st : TableState) (column : String) : TableState × Nat :=
  if st.sortColumn = some column then
    ({ st with sortDirection :=
        if st.sortDirection = SortDirection.asc then SortDirection.desc
        else SortDirection.asc }, 1)
  else
    ({ st with sortColumn := some column, sortDirection := SortDirection.asc }, 1)

/-- Debounced search-input handler: stores the query, resets to page 1 and
calls `loadData` once. -/
def searchInput (st : TableState) (q : String) : TableState × Nat :=
  ({ st with searchQuery := q, currentPage := 1 }, 1)

/-- `setFilters(filters)`: replaces the filter mapping, resets `currentPage`
to 1, and calls `loadData` once. -/
def setFilters (st : TableState) (filters : List (String × String)) : TableState × Nat :=
  ({ st with filters := filters, currentPage := 1 }, 1)

/-- Click handler of a pagination link: the clicked `data-page` value (an
integer that can be 0, from the previous-chevron on page 1) updates
`currentPage` and reloads only when it is positive, within `totalPages` and
different from the current page. -/
def pageClick (st : TableState) (page : Int) : TableState × Nat :=
  if page > 0 ∧ page ≤ (st.totalPages : Int) ∧ page ≠ (st.currentPage : Int) then
    ({ st with currentPage := page.toNat }, 1)
  else
    (st, 0)

/-- One user-or-server-driven transition of the table state. -/
inductive Step where
  | search (q : String)
  | sort (c : String)
  | page (p : Int)
  | filter (f : List (String × String))
  | paginate (totalCount : Nat)
  | refresh

/-- State transition of one step; `paginate` is the `renderPagination` state
update performed by a successful load, `refresh` reloads without changing
state. -/
def step (opts : Options) (st : TableState) : Step → TableState
  | Step.search q => (searchInput st q).1
  | Step.sort c => (sortClick st c).1
  | Step.page p => (pageClick st p).1
  | Step.filter f => (setFilters st f).1
  | Step.paginate n => (renderPagination opts st n).1
  | Step.refresh => st

/-- The table state after a sequence of steps from the constructor state. -/
def runSteps (opts : Options) (steps : List Step) : TableState :=
  steps.foldl (step opts) initState

end DataTable

/-- Effects a modal button click handler performs, in order: `this.hide()`
and invocations of named caller callbacks. -/
inductive ButtonEffect where
  | hide
  | callback (name : String)
deriving DecidableEq, Repr

/-- A footer button: label, CSS class, and the click handler attached to it. -/
structure ModalButton where
  label : String
  btnClass : String
  onClick : List ButtonEffect
deriving DecidableEq, Repr

namespace Modal

/-- Merged modal configuration (the `defaults` object of `Modal.show`). -/
structure Config where
  title : String
  body : String
  size : String
  buttons : List ModalButton
  closeOnBackdrop : Bool
  onShow : Option Nat
  onHide : Option Nat
deriving DecidableEq, Repr

/-- Caller-supplied options: a key absent from the options object leaves the
default in force (`{...defaults, ...options}`). -/
structure Options where
  title : Option String := none
  body : Option String := none
  size : Option String := none
  buttons : Option (List ModalButton) := none
  closeOnBackdrop : Option Bool := none
  onShow : Option Nat := none
  onHide : Option Nat := none
deriving DecidableEq, Repr

/-- The default configuration of `Modal.show`: title `Modal`, empty body,
medium size, a single secondary `Close` button that hides the modal,
backdrop-dismissible, no lifecycle callbacks. -/
def defaults : Config :=
  { title := "Modal"
    body := ""
    size := "md"
    buttons := [{ label := "Close", btnClass := "btn-secondary",
                  onClick := [ButtonEffect.hide] }]
    closeOnBackdrop := true
    onShow := none
    onHide := none }

/-- `const config = {...defaults, ...options}`. -/
def mergeConfig (options : Options) : Config :=
  { title := options.title.getD defaults.title
    body := options.body.getD defaults.body
    size := options.size.getD defaults.size
    buttons := options.buttons.getD defaults.buttons
    closeOnBackdrop := options.closeOnBackdrop.getD defaults.closeOnBackdrop
    onShow := options.onShow
    onHide := options.onHide }

/-- Structural state of the single shared `#globalModal` element: its title
and body content, the size class on the dialog (`modal-sm/lg/xl` or none),
the footer buttons with their handlers, the backdrop/keyboard options, the
listener lists for `shown.bs.modal` and `hidden.bs.modal` (jQuery `.on`
appends to these), visibility, and whether a bootstrap instance exists. -/
structure Dom where
  title : String
  body : String
  sizeClass : Option String
  footer : List ModalButton
  backdropStatic : Bool
  keyboard : Bool
  shownHandlers : List Nat
  hiddenHandlers : List Nat
  visible : Bool
  hasInstance : Bool
deriving DecidableEq, Repr

/-- The page-load state of the modal element: empty content, hidden, no
handlers, no bootstrap instance. -/
def initialDom : Dom :=
  { title := ""
    body := ""
    sizeClass := none
    footer := []
    backdropStatic := false
    keyboard := true
    shownHandlers := []
    hiddenHandlers := []
    visible := false
    hasInstance := false }

/-- `Modal.show(options)`: replaces title and body, removes all size classes
then adds `modal-size` when the size is not `md`, empties the footer and
appends the configured buttons with freshly attached handlers, sets the
backdrop options, shows the dialog, and appends the `onShow`/`onHide`
callbacks (when present) to the existing listener lists. -/
def show' (dom : Dom) (options : Options) : Dom :=
  let config := mergeConfig options
  { title := config.title
    body := config.body
    sizeClass := if config.size != "md" then some ("modal-" ++ config.size) else none
    footer := config.buttons
    backdropStatic := !config.closeOnBackdrop
    keyboard := config.closeOnBackdrop
    shownHandlers := dom.shownHandlers ++ config.onShow.toList
    hiddenHandlers := dom.hiddenHandlers ++ config.onHide.toList
    visible := true
    hasInstance := true }

/-- `Modal.hide()`: hides the dialog when a bootstrap instance exists. -/
def hide (dom : Dom) : Dom :=
  if dom.hasInstance then { dom with visible := false } else dom

/-- Runs a click handler: applies its effects in order, returning the
resulting DOM state and the list of caller callbacks invoked, in invocation
order. -/
def runEffects (dom : Dom) (effects : List ButtonEffect) : Dom × List String :=
  effects.foldl
    (fun acc e =>
      match e with
      | ButtonEffect.hide => (hide acc.1, acc.2)
      | ButtonEffect.callback n => (acc.1, acc.2 ++ [n]))
    (dom, [])

/-- Clicking the i-th footer button (0-based); clicking where no button
exists does nothing. -/
def clickButton (dom : Dom) (i : Nat) : Dom × List String :=
  match dom.footer[i]? with
  | some b => runEffects dom b.onClick
  | none => (dom, [])

/-- `Modal.confirm(message, onConfirm)`: shows a `Confirm Action` dialog
whose body wraps the message in a paragraph, with a secondary `Cancel` button
that hides, and a primary `Confirm` button that hides and then invokes the
callback. -/
def confirm (dom : Dom) (message : String) (onConfirm : String) : Dom :=
  show' dom
    { title := some "Confirm Action"
      body := some ("<p class=\"mb-0\">" ++ message ++ "</p>")
      buttons := some
        [{ label := "Cancel", btnClass := "btn-secondary",
           onClick := [ButtonEffect.hide] },
         { label := "Confirm", btnClass := "btn-primary",
           onClick := [ButtonEffect.hide, ButtonEffect.callback onConfirm] }] }

end Modal

/-! ## Properties -/

/-- Decomposition of `pageWindow` into its start page and end page. -/
theorem pageWindow_eq (cp tp : Nat) :
    DataTable.pageWindow cp tp =
      List.range' (DataTable.pwStart cp tp)
        (DataTable.pwEnd cp tp + 1 - DataTable.pwStart cp tp) := rfl

/-- The start of the window is at least 1 and never beyond the current page;
the end never exceeds the page total; the window spans at most five pages. -/
theorem pw_bounds (cp tp : Nat) :
    1 ≤ DataTable.pwStart cp tp ∧
    DataTable.pwEnd cp tp ≤ tp ∧
    DataTable.pwEnd cp tp + 1 - DataTable.pwStart cp tp ≤ 5 := by
  unfold DataTable.pwStart DataTable.pwEnd DataTable.pwStartInit
  split <;> omega

/-- When the current page is within range, the window has exactly
`min 5 totalPages` entries and contains the current page. -/
theorem pw_inrange (cp tp : Nat) (h1 : 1 ≤ cp) (h2 : cp ≤ tp) :
    DataTable.pwEnd cp tp + 1 - DataTable.pwStart cp tp = min 5 tp ∧
    DataTable.pwStart cp tp ≤ cp ∧ cp ≤ DataTable.pwEnd cp tp := by
  unfold DataTable.pwStart DataTable.pwEnd DataTable.pwStartInit
  split <;> omega

/-- C6: whenever the loaded result list is empty, `renderData` renders exactly
one placeholder row, whose single cell spans all configured columns
(`colspan = columns.length`) and whose content is the empty-state markup —
an inbox icon and the configured empty message. -/
theorem C6_empty_render (opts : DataTable.Options) :
    DataTable.renderData opts [] =
      [{ cells := [{ colspan := opts.columns.length
                     content := "<div class=\"empty-state\"><i class=\"fas fa-inbox\"></i><h5>No Data Available</h5><p>"
                       ++ opts.emptyMessage ++ "</p></div>" }]
         clickable := false }] ∧
    (DataTable.renderData opts []).length = 1 := ⟨rfl, rfl⟩

/-- Overwriting the value stored under one key leaves lookups of every other
key unchanged. -/
theorem lookup_map_override (obj : List (String × JsValue)) (k0 : String)
    (v : JsValue) (k : String) (hk : k ≠ k0) :
    List.lookup k (obj.map fun p => if p.1 = k0 then (p.1, v) else p) =
      List.lookup k obj := by
  induction obj with
  | nil => rfl
  | cons p rest ih =>
      obtain ⟨pk, pv⟩ := p
      by_cases hpk : pk = k0
      · subst hpk
        have hkp : (k == pk) = false := beq_false_of_ne hk
        simp [List.lookup_cons, hkp, ih]
      · cases hkp : (k == pk) <;>
          simp [List.lookup_cons, hpk, hkp, ih]

/-- Appending an entry under a different key leaves a lookup unchanged. -/
theorem lookup_append_single (obj : List (String × JsValue))
    (kv : String × JsValue) (k : String) (hk : k ≠ kv.1) :
    List.lookup k (obj ++ [kv]) = List.lookup k obj := by
  obtain ⟨k1, v1⟩ := kv
  have hkp : (k == k1) = false := beq_false_of_ne hk
  induction obj with
  | nil => simp [List.lookup_cons, hkp]
  | cons p rest ih =>
      obtain ⟨pk, pv⟩ := p
      cases hpk : (k == pk) <;>
        simp [List.cons_append, List.lookup_cons, hpk, ih]

/-- A property assignment under a different key leaves a lookup unchanged. -/
theorem lookup_objAssign (obj : List (String × JsValue)) (kv : String × JsValue)
    (k : String) (hk : k ≠ kv.1) :
    List.lookup k (DataTable.objAssign obj kv) = List.lookup k obj := by
  unfold DataTable.objAssign
  split
  · exact lookup_map_override obj kv.1 kv.2 k hk
  · exact lookup_append_single obj kv k hk

/-- Spreading entries none of which uses the key `k` leaves the lookup of `k`
unchanged. -/
theorem lookup_foldl_objAssign (kvs : List (String × JsValue))
    (obj : List (String × JsValue)) (k : String)
    (hk : ∀ kv ∈ kvs, k ≠ kv.1) :
    List.lookup k (kvs.foldl DataTable.objAssign obj) = List.lookup k obj := by
  induction kvs generalizing obj with
  | nil => rfl
  | cons kv rest ih =>
      rw [List.foldl_cons, ih _ fun x hx => hk x (List.mem_cons_of_mem _ hx)]
      exact lookup_objAssign obj kv k (hk kv (List.mem_cons_self _ _))

/-- C8: for every filter mapping and every prior state, `setFilters` replaces
the active filter mapping, resets `currentPage` to 1 and issues exactly one
reload; whenever the new filter mapping does not itself use the key `page`
(a filter so keyed would overwrite the page parameter through the later-wins
spread), the query built for that reload carries `page = 1`. -/
theorem C8_setFilters (opts : DataTable.Options) (st : DataTable.TableState)
    (f : List (String × String)) :
    DataTable.setFilters st f = ({ st with filters := f, currentPage := 1 }, 1) ∧
    ((∀ kv ∈ f, "page" ≠ kv.1) →
      List.lookup "page" (DataTable.buildParams opts (DataTable.setFilters st f).1) =
        some (JsValue.num 1)) := by
  refine ⟨rfl, fun hf => ?_⟩
  unfold DataTable.buildParams
  rw [lookup_foldl_objAssign]
  · rfl
  · intro kv hkv
    obtain ⟨x, hx, rfl⟩ := List.mem_map.mp hkv
    exact hf x hx

/-- Witness for C8: installing a `status` filter resets the state to page 1
and the reload query carries `page = 1`. -/
theorem C8_setFilters_witness :
    DataTable.setFilters DataTable.initState [("status", "active")] =
      ({ DataTable.initState with filters := [("status", "active")], currentPage := 1 }, 1) ∧
    List.lookup "page"
        (DataTable.buildParams {}
          (DataTable.setFilters DataTable.initState [("status", "active")]).1) =
      some (JsValue.num 1) :=
  ⟨(C8_setFilters {} DataTable.initState [("status", "active")]).1,
   (C8_setFilters {} DataTable.initState [("status", "active")]).2 (by decide)⟩

/-- C2: on every failing list request (the `.error` case of the ajax result,
covering network failure, HTTP error status and unparsable body), `loadData`
returns normally — its catch block logs the error to the console, shows a
`Failed to load data` error toast, renders the empty-state body, does not
touch the pagination, leaves the state unchanged, and issues exactly one
request (no retry). -/
theorem C2_load_failure (opts : DataTable.Options) (st : DataTable.TableState)
    (e : String) :
    DataTable.loadData opts st (Except.error e) =
      (st,
       { request := DataTable.buildParams opts st
         tbody := DataTable.renderData opts []
         pagination := none
         toast := some { message := "Failed to load data", level := "error" }
         consoleErrors := ["Error loading data: " ++ e]
         requests := 1 }) ∧
    (DataTable.loadData opts st (Except.error e)).2.tbody.length = 1 := ⟨rfl, rfl⟩

/-- C10: a falsy cell value — `undefined`, `null`, `0`, `false` or the empty
string — renders as the dash placeholder, whether it came from `row[col.key]`
or from the render function of the column; the enumerated values are
exactly falsy. -/
theorem C10_falsy_dash (col : Column) (row : RowData)
    (h : (DataTable.cellValue col row).truthy = false) :
    DataTable.tdContent col row = "-" ∧
    JsValue.undef.truthy = false ∧
    JsValue.null.truthy = false ∧
    (JsValue.num 0).truthy = false ∧
    (JsValue.bool false).truthy = false ∧
    (JsValue.str "").truthy = false := by
  refine ⟨?_, rfl, rfl, by decide, rfl, by decide⟩
  unfold DataTable.tdContent
  simp [h]

/-- Witness for C10: a direct `row[col.key]` access returning `0` and a
render function returning the empty string both produce the dash. -/
theorem C10_falsy_dash_witness :
    ((DataTable.cellValue { key := "age", label := "Age" }
        [("age", JsValue.num 0)]).truthy = false ∧
      DataTable.tdContent { key := "age", label := "Age" } [("age", JsValue.num 0)] = "-") ∧
    ((DataTable.cellValue { key := "x", label := "X", render := some fun _ => JsValue.str "" }
        []).truthy = false ∧
      DataTable.tdContent { key := "x", label := "X", render := some fun _ => JsValue.str "" } [] = "-") :=
  ⟨⟨by decide, (C10_falsy_dash _ _ (by decide)).1⟩,
   ⟨by decide, (C10_falsy_dash _ _ (by decide)).1⟩⟩

/-- C5 (amended): clicking a sortable header selects the column ascending when
it was not the active sort column, and toggles the direction when it was;
every click issues exactly one reload.  Clicking the active column twice
returns the direction to its value before the two clicks — ascending whenever
it was ascending — while two clicks on a previously inactive column end
descending. -/
theorem C5_sort_toggle (st : DataTable.TableState) (c : String) :
    ((DataTable.sortClick st c).1.sortColumn = some c) ∧
    ((DataTable.sortClick st c).1.sortDirection =
      if st.sortColumn = some c then
        (if st.sortDirection = SortDirection.asc then SortDirection.desc
         else SortDirection.asc)
      else SortDirection.asc) ∧
    ((DataTable.sortClick st c).2 = 1) ∧
    ((DataTable.sortClick (DataTable.sortClick st c).1 c).1.sortDirection =
      if st.sortColumn = some c then st.sortDirection else SortDirection.desc) := by
  by_cases h : st.sortColumn = some c <;>
    cases hd : st.sortDirection <;>
      simp [DataTable.sortClick, h, hd]

/-- Counterexample for C5: starting from the constructor state, four clicks on
the same header (the last two of which are clicks on the already-active
column, then in descending direction) leave the direction descending, whereas
the claim asserts that clicking the active column twice returns the direction
to ascending. -/
theorem C5_counterexample :
    (DataTable.sortClick (DataTable.sortClick (DataTable.sortClick
        (DataTable.sortClick DataTable.initState "name").1 "name").1 "name").1
      "name").1.sortDirection ≠ SortDirection.asc := by decide

/-- C7: `Modal.confirm(message, cb)` shows a visible two-button Cancel/Confirm
dialog; clicking Cancel hides the dialog and invokes no callback, and clicking
Confirm hides the dialog and then invokes the callback exactly once. -/
theorem C7_confirm (dom : Modal.Dom) (message cb : String) :
    ((Modal.confirm dom message cb).visible = true) ∧
    ((Modal.confirm dom message cb).footer.map ModalButton.label =
      ["Cancel", "Confirm"]) ∧
    (Modal.clickButton (Modal.confirm dom message cb) 0 =
      ({ Modal.confirm dom message cb with visible := false }, [])) ∧
    (Modal.clickButton (Modal.confirm dom message cb) 1 =
      ({ Modal.confirm dom message cb with visible := false }, [cb])) :=
  ⟨rfl, rfl, rfl, rfl⟩

/-- C3 (amended): after `Modal.show(c1); Modal.show(c2)` the single shared
dialog is visible, and its title, body, size class, footer buttons and
backdrop behaviour reflect only the second configuration, with every button
click handler attached fresh; however, the lifecycle listeners accumulate: the
`onShow`/`onHide` callbacks of the first configuration (and any earlier ones)
remain attached alongside those of the second. -/
theorem C3_second_show (dom : Modal.Dom) (c1 c2 : Modal.Options) :
    ((Modal.show' (Modal.show' dom c1) c2).visible = true) ∧
    ((Modal.show' (Modal.show' dom c1) c2).title = (Modal.mergeConfig c2).title) ∧
    ((Modal.show' (Modal.show' dom c1) c2).body = (Modal.mergeConfig c2).body) ∧
    ((Modal.show' (Modal.show' dom c1) c2).sizeClass =
      if (Modal.mergeConfig c2).size != "md" then
        some ("modal-" ++ (Modal.mergeConfig c2).size)
      else none) ∧
    ((Modal.show' (Modal.show' dom c1) c2).footer = (Modal.mergeConfig c2).buttons) ∧
    ((Modal.show' (Modal.show' dom c1) c2).backdropStatic =
      !(Modal.mergeConfig c2).closeOnBackdrop) ∧
    ((Modal.show' (Modal.show' dom c1) c2).keyboard =
      (Modal.mergeConfig c2).closeOnBackdrop) ∧
    ((Modal.show' (Modal.show' dom c1) c2).shownHandlers =
      dom.shownHandlers ++ c1.onShow.toList ++ c2.onShow.toList) ∧
    ((Modal.show' (Modal.show' dom c1) c2).hiddenHandlers =
      dom.hiddenHandlers ++ c1.onHide.toList ++ c2.onHide.toList) :=
  ⟨rfl, rfl, rfl, rfl, rfl, rfl, rfl, rfl, rfl⟩

/-- Counterexample for C3: showing a configuration with an `onShow` callback
and then a second configuration without one leaves the first callback
attached to the `shown.bs.modal` event, so the dialog does not reflect only
the second configuration — its listener list differs from that of a dialog
shown with the second configuration alone. -/
theorem C3_counterexample :
    (Modal.show' (Modal.show' Modal.initialDom { onShow := some 1 })
        ({} : Modal.Options)).shownHandlers ≠
      (Modal.show' Modal.initialDom ({} : Modal.Options)).shownHandlers := by
  decide

/-- C4 (amended): for the response `{results: [{id:1, name:"A"}], count: 1}`
with `pageSize = 20`, the table renders exactly one data row, the info text is
`Showing 1 to 1 of 1 entries`, and the pagination consists of a disabled
previous link, one numbered page link for page 1 carrying the active class,
and a disabled next link. -/
theorem C4_single_row_scenario :
    DataTable.loadData
        { pageSize := 20
          columns := [{ key := "id", label := "ID" }, { key := "name", label := "Name" }] }
        DataTable.initState
        (Except.ok { results := some [[("id", JsValue.num 1), ("name", JsValue.str "A")]]
                     data := none
                     count := some 1 }) =
      ({ DataTable.initState with totalPages := 1 },
       { request := DataTable.buildParams
           { pageSize := 20
             columns := [{ key := "id", label := "ID" }, { key := "name", label := "Name" }] }
           DataTable.initState
         tbody := [{ cells := [{ colspan := 1, content := "1" },
                               { colspan := 1, content := "A" }]
                     clickable := false }]
         pagination := some
           { info := "Showing 1 to 1 of 1 entries"
             prevDisabled := true
             prevTarget := 0
             links := [{ page := 1, active := true }]
             nextDisabled := true
             nextTarget := 2 }
         toast := none
         consoleErrors := []
         requests := 1 }) := by
  rfl

/-- Counterexample for C4: at the same input the rendered pagination is not
made of the two chevron links alone — the numbered-link window is nonempty
(it holds the link for page 1), whereas the claim asserts the pagination
contains only a disabled previous link and a disabled next link. -/
theorem C4_counterexample :
    ((DataTable.loadData
        { pageSize := 20
          columns := [{ key := "id", label := "ID" }, { key := "name", label := "Name" }] }
        DataTable.initState
        (Except.ok { results := some [[("id", JsValue.num 1), ("name", JsValue.str "A")]]
                     data := none
                     count := some 1 })).2.pagination.map DataTable.Pagination.links) ≠
      some [] := by
  decide

/-- Every single table-state transition preserves positivity of
`currentPage`: the search handler and `setFilters` reset it to 1, a
pagination click installs the target only when it is positive (and in range
and different from the current page), and sorting, pagination rendering and
refresh leave it unchanged. -/
theorem step_currentPage_pos (opts : DataTable.Options) (st : DataTable.TableState)
    (s : DataTable.Step) (h : 1 ≤ st.currentPage) :
    1 ≤ (DataTable.step opts st s).currentPage := by
  cases s with
  | search q => exact Nat.le_refl 1
  | sort c =>
      show 1 ≤ (DataTable.sortClick st c).1.currentPage
      unfold DataTable.sortClick
      split <;> exact h
  | page p =>
      show 1 ≤ (DataTable.pageClick st p).1.currentPage
      unfold DataTable.pageClick
      split
      · next hc =>
          show 1 ≤ p.toNat
          omega
      · exact h
  | filter f => exact Nat.le_refl 1
  | paginate n => exact h
  | refresh => exact h

/-- C9 (amended): from the constructor state, after any sequence of user
interactions and server-driven pagination updates, `currentPage` is at least
1; whenever no active filter is keyed `page`, the query that `loadData`
builds from the resulting state carries the `page` parameter
`currentPage ≥ 1`.  Without that proviso the request clause fails: the
filters are spread last into the params object, so a filter keyed `page`
overwrites the component-computed page value. -/
theorem C9_currentPage_invariant (opts : DataTable.Options)
    (steps : List DataTable.Step) :
    1 ≤ (DataTable.runSteps opts steps).currentPage ∧
    ((∀ kv ∈ (DataTable.runSteps opts steps).filters, "page" ≠ kv.1) →
      List.lookup "page" (DataTable.buildParams opts (DataTable.runSteps opts steps)) =
          some (JsValue.num (DataTable.runSteps opts steps).currentPage) ∧
        1 ≤ (DataTable.runSteps opts steps).currentPage) := by
  have key : ∀ (l : List DataTable.Step) (st : DataTable.TableState),
      1 ≤ st.currentPage → 1 ≤ (l.foldl (DataTable.step opts) st).currentPage := by
    intro l
    induction l with
    | nil => intro st h; exact h
    | cons s rest ih =>
        intro st h
        exact ih _ (step_currentPage_pos opts st s h)
  have h1 : 1 ≤ (DataTable.runSteps opts steps).currentPage :=
    key steps DataTable.initState (Nat.le_refl 1)
  refine ⟨h1, fun hf => ⟨?_, h1⟩⟩
  unfold DataTable.buildParams
  rw [lookup_foldl_objAssign]
  · rfl
  · intro kv hkv
    obtain ⟨x, hx, rfl⟩ := List.mem_map.mp hkv
    exact hf x hx

/-- Witness for C9: with no steps taken the state sits on page 1 with no
filters, and the built query carries `page = currentPage = 1`. -/
theorem C9_currentPage_invariant_witness :
    1 ≤ (DataTable.runSteps {} []).currentPage ∧
    (List.lookup "page" (DataTable.buildParams {} (DataTable.runSteps {} [])) =
        some (JsValue.num (DataTable.runSteps {} []).currentPage) ∧
      1 ≤ (DataTable.runSteps {} []).currentPage) :=
  ⟨(C9_currentPage_invariant {} []).1,
   (C9_currentPage_invariant {} []).2 (by decide)⟩

/-- Counterexample for C9: installing the filter mapping with the single
entry keyed `page` and value `0` (reachable through `setFilters`) leaves
`currentPage = 1`, yet the query built for the next load does not carry the
`page` parameter 1 — the later-wins spread has replaced it with the filter
value, the string `0`. -/
theorem C9_counterexample :
    (DataTable.runSteps {} [DataTable.Step.filter [("page", "0")]]).currentPage = 1 ∧
    List.lookup "page"
        (DataTable.buildParams {}
          (DataTable.runSteps {} [DataTable.Step.filter [("page", "0")]])) =
      some (JsValue.str "0") ∧
    List.lookup "page"
        (DataTable.buildParams {}
          (DataTable.runSteps {} [DataTable.Step.filter [("page", "0")]])) ≠
      some (JsValue.num 1) := by
  refine ⟨by decide, by decide, by decide⟩

/-- C1: for every total count `N ≥ 0` and page size `P ≥ 1`, a successful load
sets `totalPages = ceil(N / P)` (stated as: `totalPages` is the least `t` with
`N ≤ t * P`), and the rendered window of numbered page links has at most 5
entries, each within `[1, totalPages]`; when the current page lies in
`[1, totalPages]` the window has exactly `min 5 totalPages` entries, contains
the current page as the active link, and — away from both bounds — is exactly
the five pages centred on the current page. -/
theorem C1_pagination_window (opts : DataTable.Options) (st : DataTable.TableState)
    (N : Nat) (hP : 1 ≤ opts.pageSize) :
    (N ≤ (DataTable.renderPagination opts st N).1.totalPages * opts.pageSize ∧
      ∀ t : Nat, N ≤ t * opts.pageSize →
        (DataTable.renderPagination opts st N).1.totalPages ≤ t) ∧
    (DataTable.renderPagination opts st N).2.links.length ≤ 5 ∧
    (∀ l ∈ (DataTable.renderPagination opts st N).2.links,
      1 ≤ l.page ∧ l.page ≤ (DataTable.renderPagination opts st N).1.totalPages) ∧
    (1 ≤ st.currentPage →
      st.currentPage ≤ (DataTable.renderPagination opts st N).1.totalPages →
      (DataTable.renderPagination opts st N).2.links.length =
          min 5 (DataTable.renderPagination opts st N).1.totalPages ∧
        ({ page := st.currentPage, active := true } : DataTable.PageLink) ∈
          (DataTable.renderPagination opts st N).2.links) ∧
    (3 ≤ st.currentPage →
      st.currentPage + 2 ≤ (DataTable.renderPagination opts st N).1.totalPages →
      (DataTable.renderPagination opts st N).2.links.map DataTable.PageLink.page =
        List.range' (st.currentPage - 2) 5) := by
  obtain ⟨tp, htp⟩ : ∃ tp, (N + opts.pageSize - 1) / opts.pageSize = tp := ⟨_, rfl⟩
  have htotal : (DataTable.renderPagination opts st N).1.totalPages = tp := htp
  have hlinks : (DataTable.renderPagination opts st N).2.links =
      (DataTable.pageWindow st.currentPage tp).map
        (fun i => { page := i, active := i == st.currentPage }) := by
    rw [← htp]; rfl
  obtain ⟨hb1, hb2, hb3⟩ := pw_bounds st.currentPage tp
  refine ⟨⟨?_, ?_⟩, ?_, ?_, ?_, ?_⟩
  · rw [htotal]
    have hdm := Nat.div_add_mod (N + opts.pageSize - 1) opts.pageSize
    have hmod : (N + opts.pageSize - 1) % opts.pageSize < opts.pageSize :=
      Nat.mod_lt _ (by omega)
    rw [htp] at hdm
    obtain ⟨A, hA⟩ : ∃ A, opts.pageSize * tp = A := ⟨_, rfl⟩
    obtain ⟨r, hr⟩ : ∃ r, (N + opts.pageSize - 1) % opts.pageSize = r := ⟨_, rfl⟩
    rw [hA, hr] at hdm
    rw [hr] at hmod
    rw [Nat.mul_comm, hA]
    omega
  · intro t ht
    rw [htotal, ← htp]
    rw [Nat.div_le_iff_le_mul_add_pred (by omega : 0 < opts.pageSize)]
    have h1 : N + opts.pageSize - 1 = N + (opts.pageSize - 1) := by omega
    rw [h1, Nat.mul_comm]
    exact Nat.add_le_add_right ht _
  · rw [hlinks, List.length_map, pageWindow_eq, List.length_range']
    omega
  · intro l hl
    rw [hlinks] at hl
    obtain ⟨i, hi, rfl⟩ := List.mem_map.mp hl
    rw [pageWindow_eq, List.mem_range'_1] at hi
    rw [htotal]
    dsimp only
    exact ⟨by omega, by omega⟩
  · intro hcp1 hcp2
    rw [htotal] at hcp2
    obtain ⟨hlen, hsc, hce⟩ := pw_inrange st.currentPage tp hcp1 hcp2
    constructor
    · rw [hlinks, List.length_map, pageWindow_eq, List.length_range', htotal]
      exact hlen
    · rw [hlinks]
      refine List.mem_map.mpr ⟨st.currentPage, ?_, ?_⟩
      · rw [pageWindow_eq, List.mem_range'_1]
        omega
      · simp
  · intro h3 h4
    rw [htotal] at h4
    have hs : DataTable.pwStart st.currentPage tp = st.currentPage - 2 := by
      unfold DataTable.pwStart DataTable.pwEnd DataTable.pwStartInit
      split <;> omega
    have he : DataTable.pwEnd st.currentPage tp = st.currentPage + 2 := by
      unfold DataTable.pwEnd DataTable.pwStartInit
      omega
    rw [hlinks, pageWindow_eq, hs, he]
    have hn : st.currentPage + 2 + 1 - (st.currentPage - 2) = 5 := by omega
    rw [hn, List.map_map]
    exact List.map_id'' (fun x => rfl) _

/-- Witness for C1: with page size 20 and 45 records, `totalPages` covers the
45 records and the rendered window holds at most five links. -/
theorem C1_pagination_window_witness :
    (45 ≤ (DataTable.renderPagination { pageSize := 20 } DataTable.initState 45).1.totalPages * 20) ∧
    (DataTable.renderPagination { pageSize := 20 } DataTable.initState 45).2.links.length ≤ 5 :=
  ⟨(C1_pagination_window { pageSize := 20 } DataTable.initState 45 (by decide)).1.1,
   (C1_pagination_window { pageSize := 20 } DataTable.initState 45 (by decide)).2.1⟩
